import Mathlib

/-!
Verification development for the DER-VET microgrid excerpt: a shallow
embedding of `dervet/MicrogridDER/CombinedHeatPower.py` and
`dervet/MicrogridPOI.py`, together with theorems settling the documented
properties of the constraint-assembly and aggregation logic.

Modelling conventions:
* a time window of `T` steps is `Fin T`; scalar quantities are rationals;
* a cvxpy constraint over the window is `TConstraint`: `nonPos e` is
  `cvx.NonPos(e)` (the expression is nonpositive at every step) and
  `zero e` is `cvx.Zero(e)`;
* a technology instance together with the concrete vectors held in its
  `variables_dict` plays the role of one assignment of the decision
  variables, so quantifying over instances quantifies over assignments;
* Python attributes that may be absent (`try ... except AttributeError`)
  are modelled with an outer `Option`; optional values (`None`) with an
  inner `Option`;
* methods of base classes that live outside this excerpt
  (`CT.constraints`, `POI.optimization_problem`, ...) enter as opaque
  parameters (a field or argument holding their result), since the code
  under study only extends their output.
-/

namespace DerVet

/-- Boolean window mask (`mask` argument of the Python methods). The code
under study only threads it through to the base class. -/
abbrev Mask := List Bool

/-- A convex constraint over a window of `T` time steps, as produced by
`cvx.NonPos` / `cvx.Zero` on an elementwise expression. -/
inductive TConstraint (T : Nat) where
  | nonPos (e : Fin T → ℚ)
  | zero (e : Fin T → ℚ)

/-- Satisfaction of a window constraint by the assignment baked into the
expression. -/
def TConstraint.holds {T : Nat} : TConstraint T → Prop
  | .nonPos e => ∀ t, e t ≤ 0
  | .zero e => ∀ t, e t = 0

/-- The decision variables of a CHP instance used by `CHP.constraints`:
`variables_dict` entries `elec` (from the CT base class), `steam` and
`hotwater` (added by `CHP.initialize_variables`). -/
structure CHPVars (T : Nat) where
  elec : Fin T → ℚ
  steam : Fin T → ℚ
  hotwater : Fin T → ℚ

/-- A CHP instance (`CombinedHeatPower.py`), restricted to the state read
by `CHP.constraints`. `ct_constraints` stands for the inherited
`super().constraints(mask)` of the CT base class, which is outside this
excerpt and is therefore kept opaque. -/
structure CHP (T : Nat) where
  electric_heat_ratio : ℚ
  max_steam_ratio : ℚ
  variables_dict : CHPVars T
  ct_constraints : Mask → List (TConstraint T)

/-- `CHP.constraints(self, mask)`: the base constraint list extended with
`cvx.NonPos(steam - max_steam_ratio * hotwater)` and
`cvx.Zero((steam + hotwater) * electric_heat_ratio - elec)`. -/
def CHP.constraints {T : Nat} (c : CHP T) (mask : Mask) : List (TConstraint T) :=
  c.ct_constraints mask ++
    [TConstraint.nonPos
       (fun t => c.variables_dict.steam t - c.max_steam_ratio * c.variables_dict.hotwater t),
     TConstraint.zero
       (fun t => (c.variables_dict.steam t + c.variables_dict.hotwater t) *
          c.electric_heat_ratio - c.variables_dict.elec t)]

/-- C1: for every CHP instance and mask, an assignment satisfying all the
constraints returned by `CHP.constraints(mask)` satisfies, at every step
of the window, `steam ≤ max_steam_ratio * hotwater` and
`(steam + hotwater) * electric_heat_ratio = elec`; moreover the returned
list is exactly the base list extended with these two constraints. -/
theorem C1_chp_constraints {T : Nat} (c : CHP T) (mask : Mask)
    (h : ∀ con ∈ c.constraints mask, con.holds) :
    (∀ t, c.variables_dict.steam t ≤ c.max_steam_ratio * c.variables_dict.hotwater t ∧
      (c.variables_dict.steam t + c.variables_dict.hotwater t) * c.electric_heat_ratio
        = c.variables_dict.elec t) ∧
    c.constraints mask = c.ct_constraints mask ++
      [TConstraint.nonPos
         (fun t => c.variables_dict.steam t - c.max_steam_ratio * c.variables_dict.hotwater t),
       TConstraint.zero
         (fun t => (c.variables_dict.steam t + c.variables_dict.hotwater t) *
            c.electric_heat_ratio - c.variables_dict.elec t)] := by
  have hmem1 : TConstraint.nonPos
      (fun t => c.variables_dict.steam t - c.max_steam_ratio * c.variables_dict.hotwater t) ∈
      c.constraints mask := by
    unfold CHP.constraints
    simp
  have hmem2 : TConstraint.zero
      (fun t => (c.variables_dict.steam t + c.variables_dict.hotwater t) *
        c.electric_heat_ratio - c.variables_dict.elec t) ∈
      c.constraints mask := by
    unfold CHP.constraints
    simp
  have h1 := h _ hmem1
  have h2 := h _ hmem2
  simp only [TConstraint.holds] at h1 h2
  refine ⟨fun t => ⟨by linarith [h1 t], by linarith [h2 t]⟩, rfl⟩

/-- A concrete CHP instance over a one-step window, with a feasible
assignment baked into its variables. -/
def chpEx : CHP 1 where
  electric_heat_ratio := 1
  max_steam_ratio := 1
  variables_dict := { elec := fun _ => 2, steam := fun _ => 1, hotwater := fun _ => 1 }
  ct_constraints := fun _ => []

/-- Witness for C1 at a concrete instance: the assignment satisfies all
constraints, and the two CHP coupling properties hold at step 0. -/
theorem C1_chp_constraints_witness :
    chpEx.variables_dict.steam 0 ≤ chpEx.max_steam_ratio * chpEx.variables_dict.hotwater 0 ∧
    (chpEx.variables_dict.steam 0 + chpEx.variables_dict.hotwater 0) *
      chpEx.electric_heat_ratio = chpEx.variables_dict.elec 0 :=
  (C1_chp_constraints chpEx [] (by
    intro con hcon
    unfold CHP.constraints at hcon
    simp only [chpEx, List.nil_append, List.mem_cons, List.not_mem_nil, or_false] at hcon
    rcases hcon with h | h <;> subst h <;>
      simp only [TConstraint.holds] <;> intro t <;> norm_num)).1 0

/-- A cvxpy expression over the window, as passed to
`MicrogridPOI.optimization_problem`: its elementwise value under the
assignment at hand, and the list of free decision variables occurring in
it (the result of `expr.variables()`; the Python code only tests its
truthiness, that is, nonemptiness). -/
structure CvxExpr (T : Nat) where
  value : Fin T → ℚ
  vars : List String

/-- The site thermal load attributes of a `MicrogridPOI` instance
(`site_steam_load`, `site_hotwater_load`, `site_cooling_load`): each is an
optional time series over the window. -/
structure POIThermalLoads (T : Nat) where
  site_steam_load : Option (Fin T → ℚ)
  site_hotwater_load : Option (Fin T → ℚ)
  site_cooling_load : Option (Fin T → ℚ)

/-- `MicrogridPOI.optimization_problem`, restricted to its constraint-list
output: the base list returned by `super().optimization_problem(...)`
(opaque, passed as `base_constraints`), extended with one thermal balance
constraint `cvx.NonPos(-channel_in + site_channel_load)` per channel whose
site load is not `None` and whose inflow expression has free variables. -/
def optimization_problem {T : Nat} (poi : POIThermalLoads T)
    (base_constraints : List (TConstraint T))
    (steam_in hotwater_in cold_in : CvxExpr T) : List (TConstraint T) :=
  let cl1 :=
    match poi.site_steam_load with
    | some load =>
        if steam_in.vars.isEmpty then base_constraints
        else base_constraints ++ [TConstraint.nonPos (fun t => -steam_in.value t + load t)]
    | none => base_constraints
  let cl2 :=
    match poi.site_hotwater_load with
    | some load =>
        if hotwater_in.vars.isEmpty then cl1
        else cl1 ++ [TConstraint.nonPos (fun t => -hotwater_in.value t + load t)]
    | none => cl1
  match poi.site_cooling_load with
  | some load =>
      if cold_in.vars.isEmpty then cl2
      else cl2 ++ [TConstraint.nonPos (fun t => -cold_in.value t + load t)]
  | none => cl2

/-- C2: `optimization_problem` appends the balance constraint of a thermal
channel if and only if that channel's site load is defined and its inflow
expression has at least one free decision variable; the result is exactly
the base list followed by the (possibly empty) per-channel additions, in
channel order steam, hotwater, cold. -/
theorem C2_optimization_problem_thermal_balance {T : Nat} (poi : POIThermalLoads T)
    (base_constraints : List (TConstraint T)) (steam_in hotwater_in cold_in : CvxExpr T) :
    optimization_problem poi base_constraints steam_in hotwater_in cold_in =
      base_constraints ++
      (match poi.site_steam_load with
       | some load =>
           if steam_in.vars ≠ [] then
             [TConstraint.nonPos (fun t => -steam_in.value t + load t)] else []
       | none => []) ++
      (match poi.site_hotwater_load with
       | some load =>
           if hotwater_in.vars ≠ [] then
             [TConstraint.nonPos (fun t => -hotwater_in.value t + load t)] else []
       | none => []) ++
      (match poi.site_cooling_load with
       | some load =>
           if cold_in.vars ≠ [] then
             [TConstraint.nonPos (fun t => -cold_in.value t + load t)] else []
       | none => []) := by
  unfold optimization_problem
  rcases poi.site_steam_load with _ | sl <;>
    rcases poi.site_hotwater_load with _ | hl <;>
      rcases poi.site_cooling_load with _ | cl <;>
        simp only [List.isEmpty_iff, ne_eq, List.append_assoc, List.append_nil] <;>
          split_ifs <;> simp_all [List.append_assoc]

/-- A DER instance as inspected by the sizing checks of `MicrogridPOI`:
its `tag`, the value of its `is_power_sizing()` predicate, the value of
its `sizing_error()` check, and its name. -/
structure DERInstance where
  tag : String
  name : String
  is_power_sizing : Bool
  sizing_error : Bool

/-- `MicrogridPOI.is_dcp_error(self, is_binary_formulation)`: starting
from `solve_for_size = False`, every DER tagged `Battery` contributes
`is_power_sizing() and is_binary_formulation` by disjunction. -/
def is_dcp_error (der_list : List DERInstance) (is_binary_formulation : Bool) : Bool :=
  der_list.foldl
    (fun solve_for_size der_instance =>
      if der_instance.tag = "Battery" then
        solve_for_size || (der_instance.is_power_sizing && is_binary_formulation)
      else solve_for_size)
    false

lemma is_dcp_error_foldl_or (is_binary_formulation : Bool) (l : List DERInstance)
    (acc : Bool) :
    l.foldl
      (fun solve_for_size der_instance =>
        if der_instance.tag = "Battery" then
          solve_for_size || (der_instance.is_power_sizing && is_binary_formulation)
        else solve_for_size)
      acc =
    (acc || l.any (fun der_instance =>
      decide (der_instance.tag = "Battery") &&
        (der_instance.is_power_sizing && is_binary_formulation))) := by
  induction l generalizing acc with
  | nil => simp
  | cons d l ih =>
    by_cases hd : d.tag = "Battery" <;>
      simp [List.foldl_cons, hd, ih, Bool.or_assoc]

/-- C4: `is_dcp_error(is_binary_formulation)` returns true if and only if
some DER in the list is a storage technology (tagged `Battery` in the
code) with `is_power_sizing()` true while `is_binary_formulation` is
true; every other combination yields false. -/
theorem C4_is_dcp_error_iff (der_list : List DERInstance) (is_binary_formulation : Bool) :
    is_dcp_error der_list is_binary_formulation = true ↔
      ∃ der_instance ∈ der_list, der_instance.tag = "Battery" ∧
        der_instance.is_power_sizing = true ∧ is_binary_formulation = true := by
  unfold is_dcp_error
  rw [is_dcp_error_foldl_or]
  simp [List.any_eq_true, and_assoc]

/-- Modelled from the spec: the per-technology `sizing_error` checks are
implemented by the individual technology classes outside this excerpt and
log each technology's sizing problems to the error log that the raised
message points at; here the error log produced while evaluating the
checks is the list of names of the DERs whose check fired. -/
def sizing_error_log (der_list : List DERInstance) : List String :=
  (der_list.filter (fun der => der.sizing_error)).map (fun der => der.name)

/-- The `errors_found` list built by `error_checks_on_sizing`: one entry
per DER of the list, `1` if its `sizing_error()` check fired, else `0`. -/
def errors_found (der_list : List DERInstance) : List Nat :=
  der_list.map (fun der => if der.sizing_error then 1 else 0)

/-- `MicrogridPOI.error_checks_on_sizing`: evaluates `sizing_error()` on
every DER, then raises a single `ParameterError` when the indicator sum is
nonzero. The result is the list of raised errors (empty or a singleton). -/
def error_checks_on_sizing (der_list : List DERInstance) : List String :=
  if (errors_found der_list).sum ≠ 0 then
    ["Sizing of DERs has an error. Please check error log."]
  else []

/-- C5: `error_checks_on_sizing` evaluates the sizing-error predicate of
every DER (one `errors_found` entry per DER, matching the predicate),
raises exactly one error precisely when some DER reports a sizing error
and none otherwise, and by then the error log referenced by the message
names every failing technology. -/
theorem C5_error_checks_aggregate (der_list : List DERInstance) :
    (errors_found der_list).length = der_list.length ∧
    (∀ i : Nat, ∀ hi : i < der_list.length,
      (errors_found der_list)[i]? = some (if der_list[i].sizing_error then 1 else 0)) ∧
    ((error_checks_on_sizing der_list).length = 1 ↔
      ∃ der ∈ der_list, der.sizing_error = true) ∧
    (error_checks_on_sizing der_list = [] ↔
      ∀ der ∈ der_list, der.sizing_error = false) ∧
    (∀ der ∈ der_list, der.sizing_error = true → der.name ∈ sizing_error_log der_list) := by
  have hsum : (errors_found der_list).sum ≠ 0 ↔
      ∃ der ∈ der_list, der.sizing_error = true := by
    unfold errors_found
    rw [ne_eq, List.sum_eq_zero_iff]
    simp only [List.mem_map, not_forall]
    constructor
    · rintro ⟨x, ⟨der, hmem, hx⟩, hne⟩
      refine ⟨der, hmem, ?_⟩
      by_contra hno
      simp [hno] at hx
      exact hne (by omega)
    · rintro ⟨der, hmem, herr⟩
      exact ⟨1, ⟨der, hmem, by simp [herr]⟩, by omega⟩
  refine ⟨by simp [errors_found], ?_, ?_, ?_, ?_⟩
  · intro i hi
    simp [errors_found, List.getElem?_map, List.getElem?_eq_getElem hi]
  · unfold error_checks_on_sizing
    split_ifs with hc
    · simpa using hsum.mp hc
    · simp only [List.length_nil]
      constructor
      · omega
      · intro hex
        exact absurd (hsum.mpr hex) hc
  · unfold error_checks_on_sizing
    split_ifs with hc
    · constructor
      · intro habs
        exact absurd habs (by simp)
      · intro hall
        rcases hsum.mp hc with ⟨der, hmem, herr⟩
        exact absurd (hall der hmem) (by simp [herr])
    · simp only [true_iff]
      intro der hmem
      by_contra hno
      exact hc (hsum.mpr ⟨der, hmem, by simpa using hno⟩)
  · intro der hmem herr
    unfold sizing_error_log
    exact List.mem_map_of_mem _ (List.mem_filter.mpr ⟨hmem, by simp [herr]⟩)

/-- Which rated-capacity attribute of the storage asset a size-floor
constraint refers to. -/
inductive RatedAttr where
  | ch
  | dis
  | ene
deriving DecidableEq

/-- One entry of `ess_inst.size_constraints`, the shallow form of
`cvx.NonPos(bound - attr)` where `attr` is one of the rated-capacity
attributes of the storage asset. -/
structure SizeConstraint where
  bound : ℚ
  attr : RatedAttr
deriving DecidableEq

/-- Satisfaction of a size-floor constraint by given values of the three
rated-capacity attributes: `bound - attr ≤ 0`. -/
def SizeConstraint.satisfied (c : SizeConstraint) (ch dis ene : ℚ) : Prop :=
  c.bound - (match c.attr with
             | RatedAttr.ch => ch
             | RatedAttr.dis => dis
             | RatedAttr.ene => ene) ≤ 0

/-- A storage asset as touched by `MicrogridPOI.set_size`: its three
rated-capacity attributes and its accumulated `size_constraints`. -/
structure ESS where
  ch_max_rated : ℚ
  dis_max_rated : ℚ
  ene_max_rated : ℚ
  size_constraints : List SizeConstraint
deriving DecidableEq

/-- The Deferral value stream data read by `set_size`: `min_years` and the
precomputed `deferral_df` table mapping a year to its
(`Power Capacity Requirement (kW)`, `Energy Capacity Requirement (kWh)`)
row. -/
structure Deferral where
  min_years : Int
  deferral_df : Int → ℚ × ℚ

/-- The value-stream mapping passed to `set_size`: its key set (as a
list) and the result of `value_streams.get(Deferral)`. -/
structure ValueStreams where
  keys : List String
  deferral : Option Deferral

/-- `MicrogridPOI.set_size(self, value_streams, start_year)`: reads the
deferral capacity floors for the last deferred year, takes
`der_list[0]`, and either appends three size-floor constraints (more than
one value stream) or assigns the rated attributes directly (otherwise).
`none` models the Python exceptions: `get` returning `None` (attribute
access then fails) or indexing an empty `der_list`. -/
def set_size (der_list : List ESS) (value_streams : ValueStreams) (start_year : Int) :
    Option (List ESS) :=
  match value_streams.deferral with
  | none => none
  | some deferral =>
    let min_year := deferral.min_years
    let last_year_to_defer := start_year + min_year - 1
    let p_e_req := deferral.deferral_df last_year_to_defer
    let min_power := p_e_req.1
    let min_energy := p_e_req.2
    match der_list with
    | [] => none
    | ess_inst :: rest =>
      if 1 < value_streams.keys.length then
        some ({ ess_inst with
                size_constraints := ess_inst.size_constraints ++
                  [{ bound := min_energy, attr := RatedAttr.ene },
                   { bound := min_power, attr := RatedAttr.ch },
                   { bound := min_power, attr := RatedAttr.dis }] } :: rest)
      else
        some ({ ess_inst with
                ch_max_rated := min_power
                dis_max_rated := min_power
                ene_max_rated := min_energy } :: rest)

/-- C3: with a Deferral entry holding floors `min_power` / `min_energy`
for the last deferred year, `set_size` with a single value stream sets
the rated attributes of the storage asset to exactly the floors and adds
no constraint, while with more than one value stream it appends exactly
the three size-floor constraints (each satisfied precisely when the floor
is below the matching rated attribute) and leaves the rated attributes
unmodified. -/
theorem C3_set_size_deferral (ess_inst : ESS) (rest : List ESS) (vs : ValueStreams)
    (start_year : Int) (d : Deferral) (hd : vs.deferral = some d) :
    (vs.keys.length = 1 →
      set_size (ess_inst :: rest) vs start_year =
        some ({ ess_inst with
                ch_max_rated := (d.deferral_df (start_year + d.min_years - 1)).1
                dis_max_rated := (d.deferral_df (start_year + d.min_years - 1)).1
                ene_max_rated := (d.deferral_df (start_year + d.min_years - 1)).2 } :: rest)) ∧
    (1 < vs.keys.length →
      set_size (ess_inst :: rest) vs start_year =
        some ({ ess_inst with
                size_constraints := ess_inst.size_constraints ++
                  [{ bound := (d.deferral_df (start_year + d.min_years - 1)).2
                     attr := RatedAttr.ene },
                   { bound := (d.deferral_df (start_year + d.min_years - 1)).1
                     attr := RatedAttr.ch },
                   { bound := (d.deferral_df (start_year + d.min_years - 1)).1
                     attr := RatedAttr.dis }] } :: rest)) ∧
    (∀ bound : ℚ, ∀ ch dis ene : ℚ,
      (SizeConstraint.satisfied { bound := bound, attr := RatedAttr.ch } ch dis ene ↔
        bound ≤ ch) ∧
      (SizeConstraint.satisfied { bound := bound, attr := RatedAttr.dis } ch dis ene ↔
        bound ≤ dis) ∧
      (SizeConstraint.satisfied { bound := bound, attr := RatedAttr.ene } ch dis ene ↔
        bound ≤ ene)) := by
  refine ⟨?_, ?_, ?_⟩
  · intro h1
    unfold set_size
    rw [hd]
    simp [h1]
  · intro hgt
    unfold set_size
    rw [hd]
    simp [hgt]
  · intro bound ch dis ene
    unfold SizeConstraint.satisfied
    refine ⟨?_, ?_, ?_⟩ <;> constructor <;> intro h <;> linarith

/-- A concrete storage asset with no accumulated size constraints. -/
def essEx : ESS where
  ch_max_rated := 100
  dis_max_rated := 110
  ene_max_rated := 400
  size_constraints := []

/-- A second concrete storage asset, used as a non-first list element. -/
def essEx2 : ESS where
  ch_max_rated := 7
  dis_max_rated := 8
  ene_max_rated := 9
  size_constraints := []

/-- A Deferral stream whose table requires 500 kW and 2000 kWh in every
year. -/
def deferralEx : Deferral where
  min_years := 1
  deferral_df := fun _ => (500, 2000)

/-- A value-stream mapping in which Deferral is the only entry. -/
def vsOnlyDeferral : ValueStreams where
  keys := ["Deferral"]
  deferral := some deferralEx

/-- A value-stream mapping with a second value stream next to Deferral. -/
def vsTwoStreams : ValueStreams where
  keys := ["Deferral", "DA"]
  deferral := some deferralEx

/-- Witness for C3: with Deferral alone, the concrete asset's rated
attributes become exactly 500 / 500 / 2000 and its constraint list stays
empty. -/
theorem C3_set_size_deferral_witness :
    set_size [essEx] vsOnlyDeferral 2020 =
      some [{ ch_max_rated := 500, dis_max_rated := 500, ene_max_rated := 2000,
              size_constraints := [] }] :=
  (C3_set_size_deferral essEx [] vsOnlyDeferral 2020 deferralEx rfl).1 rfl

/-- C10: a successful `set_size` call leaves every DER after the first
untouched (same tail, same length, same entries at every nonzero index)
and applies the deferral update to `der_list[0]` unconditionally. -/
theorem C10_set_size_frame (der_list : List ESS) (vs : ValueStreams) (start_year : Int)
    (r : List ESS) (h : set_size der_list vs start_year = some r) :
    r.tail = der_list.tail ∧
    r.length = der_list.length ∧
    (∀ i : Nat, i ≠ 0 → r[i]? = der_list[i]?) ∧
    (∃ d, vs.deferral = some d ∧
      ∃ ess0 rest, der_list = ess0 :: rest ∧
        r = (if 1 < vs.keys.length then
               { ess0 with
                 size_constraints := ess0.size_constraints ++
                   [{ bound := (d.deferral_df (start_year + d.min_years - 1)).2
                      attr := RatedAttr.ene },
                    { bound := (d.deferral_df (start_year + d.min_years - 1)).1
                      attr := RatedAttr.ch },
                    { bound := (d.deferral_df (start_year + d.min_years - 1)).1
                      attr := RatedAttr.dis }] }
             else
               { ess0 with
                 ch_max_rated := (d.deferral_df (start_year + d.min_years - 1)).1
                 dis_max_rated := (d.deferral_df (start_year + d.min_years - 1)).1
                 ene_max_rated := (d.deferral_df (start_year + d.min_years - 1)).2 }) ::
          rest) := by
  unfold set_size at h
  rcases hdef : vs.deferral with _ | d
  · rw [hdef] at h
    exact absurd h (by simp)
  · rw [hdef] at h
    rcases der_list with _ | ⟨ess0, rest⟩
    · exact absurd h (by simp)
    · dsimp only at h
      by_cases hk : 1 < vs.keys.length
      · rw [if_pos hk] at h
        injection h with h
        subst h
        refine ⟨rfl, by simp, ?_, d, rfl, ess0, rest, rfl, by rw [if_pos hk]⟩
        intro i hi
        cases i with
        | zero => exact absurd rfl hi
        | succ j => simp
      · rw [if_neg hk] at h
        injection h with h
        subst h
        refine ⟨rfl, by simp, ?_, d, rfl, ess0, rest, rfl, by rw [if_neg hk]⟩
        intro i hi
        cases i with
        | zero => exact absurd rfl hi
        | succ j => simp

/-- The expected result of the C10 witness call: only the head of the
list is modified, receiving the three size-floor constraints. -/
def setSizeResEx : List ESS :=
  [{ ch_max_rated := 100, dis_max_rated := 110, ene_max_rated := 400,
     size_constraints :=
       [{ bound := 2000, attr := RatedAttr.ene },
        { bound := 500, attr := RatedAttr.ch },
        { bound := 500, attr := RatedAttr.dis }] },
   essEx2]

/-- Witness for C10 at a concrete two-asset list: the call succeeds and
the tail (the second asset) is returned unchanged. -/
theorem C10_set_size_frame_witness :
    set_size [essEx, essEx2] vsTwoStreams 2020 = some setSizeResEx ∧
    setSizeResEx.tail = [essEx, essEx2].tail ∧
    setSizeResEx.length = 2 :=
  have h : set_size [essEx, essEx2] vsTwoStreams 2020 = some setSizeResEx := by decide
  ⟨h, (C10_set_size_frame [essEx, essEx2] vsTwoStreams 2020 setSizeResEx h).1,
    (C10_set_size_frame [essEx, essEx2] vsTwoStreams 2020 setSizeResEx h).2.1⟩

/-- A DER as probed by the thermal-load loop of `MicrogridPOI.__init__`:
each site load attribute may be absent from the instance entirely (outer
`none`, the `AttributeError` case) or present with an optional series. -/
structure ThermalAttrDER (T : Nat) where
  site_steam_load : Option (Option (Fin T → ℚ))
  site_hotwater_load : Option (Option (Fin T → ℚ))
  site_cooling_load : Option (Option (Fin T → ℚ))

/-- One `try: self.x = der.x / except AttributeError: self.x = None`
block: copy the attribute when the DER defines it, else `None`. -/
def attr_or_none {T : Nat} (a : Option (Option (Fin T → ℚ))) : Option (Fin T → ℚ) :=
  match a with
  | some v => v
  | none => none

/-- The thermal-load loop at the end of `MicrogridPOI.__init__`: for each
active DER in order, all three POI site load attributes are reassigned
from that DER (or to `None` on `AttributeError`). -/
def assign_thermal_loads {T : Nat} (active_ders : List (ThermalAttrDER T))
    (init : POIThermalLoads T) : POIThermalLoads T :=
  active_ders.foldl
    (fun _poi der =>
      { site_steam_load := attr_or_none der.site_steam_load
        site_hotwater_load := attr_or_none der.site_hotwater_load
        site_cooling_load := attr_or_none der.site_cooling_load })
    init

lemma foldl_const_apply_last {α β : Type} (g : α → β) (l : List α) (init : β)
    (h : l ≠ []) :
    l.foldl (fun _ d => g d) init = g (l.getLast h) := by
  induction l generalizing init with
  | nil => exact absurd rfl h
  | cons a l ih =>
    cases l with
    | nil => simp [List.foldl]
    | cons b m =>
      rw [List.foldl_cons, List.getLast_cons (by simp)]
      exact ih (g a) (by simp)

/-- C9: after the `__init__` loop over a nonempty active-DER list, each
POI site thermal load attribute equals the corresponding attribute of the
last DER (and is `None` when the last DER does not define it); every
earlier declaration is overwritten. -/
theorem C9_thermal_loads_last_der {T : Nat} (active_ders : List (ThermalAttrDER T))
    (init : POIThermalLoads T) (h : active_ders ≠ []) :
    assign_thermal_loads active_ders init =
      { site_steam_load := attr_or_none (active_ders.getLast h).site_steam_load
        site_hotwater_load := attr_or_none (active_ders.getLast h).site_hotwater_load
        site_cooling_load := attr_or_none (active_ders.getLast h).site_cooling_load } := by
  unfold assign_thermal_loads
  exact foldl_const_apply_last
    (fun der => { site_steam_load := attr_or_none der.site_steam_load
                  site_hotwater_load := attr_or_none der.site_hotwater_load
                  site_cooling_load := attr_or_none der.site_cooling_load })
    active_ders init h

/-- A DER declaring a steam load series but no cooling-load attribute. -/
def derThermalA : ThermalAttrDER 1 where
  site_steam_load := some (some (fun _ => 4))
  site_hotwater_load := some none
  site_cooling_load := none

/-- A later DER lacking the steam attribute but declaring hotwater. -/
def derThermalB : ThermalAttrDER 1 where
  site_steam_load := none
  site_hotwater_load := some (some (fun _ => 6))
  site_cooling_load := some none

/-- An initial POI state with no thermal loads set. -/
def poiInitEx : POIThermalLoads 1 where
  site_steam_load := none
  site_hotwater_load := none
  site_cooling_load := none

/-- Witness for C9: with two concrete DERs, the steam load declared by
the first DER is overwritten to `None` by the second (which lacks the
attribute), and the hotwater load comes from the second DER. -/
theorem C9_thermal_loads_last_der_witness :
    assign_thermal_loads [derThermalA, derThermalB] poiInitEx =
      { site_steam_load := none
        site_hotwater_load := some (fun _ => 6)
        site_cooling_load := none } :=
  C9_thermal_loads_last_der [derThermalA, derThermalB] poiInitEx (by simp)

/-- A DER as inspected by the dervet-specific loop of
`MicrogridPOI.get_state_of_system`: its technology type, identifier,
heat/cold source flags, and the window vectors returned by
`get_charge`, `get_steam_recovered`, `get_hotwater_recovered` and
`get_cold_recovered`. -/
structure ThermalDER (T : Nat) where
  technology_type : String
  tech_id : String
  is_hot : Bool
  is_cold : Bool
  charge : Fin T → ℚ
  steam_recovered : Fin T → ℚ
  hotwater_recovered : Fin T → ℚ
  cold_recovered : Fin T → ℚ

/-- The aggregates threaded through `get_state_of_system`, restricted to
those the dervet loop modifies, plus the list of emitted warnings. -/
structure SystemState (T : Nat) where
  load_sum : Fin T → ℚ
  agg_steam_heating_power : Fin T → ℚ
  agg_hotwater_heating_power : Fin T → ℚ
  agg_thermal_cooling_power : Fin T → ℚ
  warnings : List String

/-- The warning text emitted for an active heat source when both hot site
loads are missing (`TellUser.warning` in the Python; abbreviated). -/
def heat_warning (tech_id : String) : String :=
  "heat source technology active without thermal site load: " ++ tech_id

/-- The warning text emitted for an active cold source when the cooling
site load is missing (`TellUser.warning` in the Python; abbreviated). -/
def cold_warning (tech_id : String) : String :=
  "cold source technology active without cooling site load: " ++ tech_id

/-- One iteration of the dervet loop in `get_state_of_system`: EV charge
into the load aggregate; for a heat source, either a warning (both hot
site loads `None`) or per-channel inclusion of recovered heat; for a cold
source, either a warning (cooling load `None`) or inclusion of recovered
cold. -/
def state_step {T : Nat} (poi : POIThermalLoads T) (st : SystemState T)
    (der_inst : ThermalDER T) : SystemState T :=
  let st1 :=
    if der_inst.technology_type = "Electric Vehicle" then
      { st with load_sum := fun t => st.load_sum t + der_inst.charge t }
    else st
  let st2 :=
    if der_inst.is_hot then
      if poi.site_steam_load.isNone && poi.site_hotwater_load.isNone then
        { st1 with warnings := st1.warnings ++ [heat_warning der_inst.tech_id] }
      else
        let st1s :=
          if poi.site_steam_load.isSome then
            { st1 with agg_steam_heating_power :=
                fun t => st1.agg_steam_heating_power t + der_inst.steam_recovered t }
          else st1
        if poi.site_hotwater_load.isSome then
          { st1s with agg_hotwater_heating_power :=
              fun t => st1s.agg_hotwater_heating_power t + der_inst.hotwater_recovered t }
        else st1s
    else st1
  if der_inst.is_cold then
    if poi.site_cooling_load.isNone then
      { st2 with warnings := st2.warnings ++ [cold_warning der_inst.tech_id] }
    else
      { st2 with agg_thermal_cooling_power :=
          fun t => st2.agg_thermal_cooling_power t + der_inst.cold_recovered t }
  else st2

/-- The dervet-specific part of `MicrogridPOI.get_state_of_system`: the
loop over the active DERs starting from the aggregates returned by the
base class (opaque, passed as `init`). -/
def get_state_of_system {T : Nat} (poi : POIThermalLoads T)
    (active_ders : List (ThermalDER T)) (init : SystemState T) : SystemState T :=
  active_ders.foldl (state_step poi) init

lemma state_step_spec {T : Nat} (poi : POIThermalLoads T) (st : SystemState T)
    (d : ThermalDER T) :
    ((state_step poi st d).load_sum = fun t => st.load_sum t +
        if d.technology_type = "Electric Vehicle" then d.charge t else 0) ∧
    ((state_step poi st d).agg_steam_heating_power = fun t => st.agg_steam_heating_power t +
        if d.is_hot && poi.site_steam_load.isSome then d.steam_recovered t else 0) ∧
    ((state_step poi st d).agg_hotwater_heating_power =
        fun t => st.agg_hotwater_heating_power t +
          if d.is_hot && poi.site_hotwater_load.isSome then d.hotwater_recovered t else 0) ∧
    ((state_step poi st d).agg_thermal_cooling_power =
        fun t => st.agg_thermal_cooling_power t +
          if d.is_cold && poi.site_cooling_load.isSome then d.cold_recovered t else 0) ∧
    ((state_step poi st d).warnings = st.warnings ++
        (if d.is_hot && poi.site_steam_load.isNone && poi.site_hotwater_load.isNone then
          [heat_warning d.tech_id] else []) ++
        (if d.is_cold && poi.site_cooling_load.isNone then
          [cold_warning d.tech_id] else [])) := by
  rcases hs : poi.site_steam_load with _ | sl <;>
    rcases hh : poi.site_hotwater_load with _ | hl <;>
      rcases hc : poi.site_cooling_load with _ | cl <;>
        by_cases hev : d.technology_type = "Electric Vehicle" <;>
          cases hhot : d.is_hot <;>
            cases hcold : d.is_cold <;>
              simp [state_step, hs, hh, hc, hev, hhot, hcold]

/-- The warnings the dervet loop of `get_state_of_system` appends, in DER
order, for the given site-load configuration. -/
def expected_warnings {T : Nat} (poi : POIThermalLoads T) :
    List (ThermalDER T) → List String
  | [] => []
  | d :: rest =>
      (if d.is_hot && poi.site_steam_load.isNone && poi.site_hotwater_load.isNone then
        [heat_warning d.tech_id] else []) ++
      (if d.is_cold && poi.site_cooling_load.isNone then
        [cold_warning d.tech_id] else []) ++
      expected_warnings poi rest

/-- C6 counterexample: in `get_state_of_system`, a heat-source technology
facing an undefined steam site load but a defined hotwater site load has
its recovered steam (5, nonzero at step 0) excluded from the steam
aggregate while no warning at all is emitted - recovered energy is
dropped silently, contradicting the claim. -/
theorem C6_warning_counterexample :
    (get_state_of_system
      { site_steam_load := none, site_hotwater_load := some (fun _ => 7),
        site_cooling_load := none }
      [{ technology_type := "Generator", tech_id := "CHPx", is_hot := true, is_cold := false,
         charge := fun _ => 0, steam_recovered := fun _ => 5,
         hotwater_recovered := fun _ => 3, cold_recovered := fun _ => 0 }]
      { load_sum := fun _ => 0, agg_steam_heating_power := fun _ => 0,
        agg_hotwater_heating_power := fun _ => 0, agg_thermal_cooling_power := fun _ => 0,
        warnings := [] } : SystemState 1).warnings = [] ∧
    (∀ t, (get_state_of_system
      { site_steam_load := none, site_hotwater_load := some (fun _ => 7),
        site_cooling_load := none }
      [{ technology_type := "Generator", tech_id := "CHPx", is_hot := true, is_cold := false,
         charge := fun _ => 0, steam_recovered := fun _ => 5,
         hotwater_recovered := fun _ => 3, cold_recovered := fun _ => 0 }]
      { load_sum := fun _ => 0, agg_steam_heating_power := fun _ => 0,
        agg_hotwater_heating_power := fun _ => 0, agg_thermal_cooling_power := fun _ => 0,
        warnings := [] } : SystemState 1).agg_steam_heating_power t = 0) ∧
    (5 : ℚ) ≠ 0 := by
  refine ⟨rfl, ?_, by norm_num⟩
  intro t
  simp [get_state_of_system, state_step]

/-- C6 amended: in `get_state_of_system`, a heat-source technology
triggers a warning if and only if both hot site loads (steam and
hotwater) are undefined, in which case both its recovered streams are
excluded; otherwise each recovered hot stream is included exactly when
its own site load is defined, the other being excluded without any
warning; a cold-source technology triggers a warning exactly when the
cooling load is undefined and is included otherwise; EV charge is added
to the load aggregate. -/
theorem C6_amended_state_of_system {T : Nat} (poi : POIThermalLoads T)
    (active_ders : List (ThermalDER T)) (init : SystemState T) :
    ((get_state_of_system poi active_ders init).warnings =
      init.warnings ++ expected_warnings poi active_ders) ∧
    (∀ t, (get_state_of_system poi active_ders init).agg_steam_heating_power t =
      init.agg_steam_heating_power t +
        if poi.site_steam_load.isSome then
          ((active_ders.filter (fun d => d.is_hot)).map (fun d => d.steam_recovered t)).sum
        else 0) ∧
    (∀ t, (get_state_of_system poi active_ders init).agg_hotwater_heating_power t =
      init.agg_hotwater_heating_power t +
        if poi.site_hotwater_load.isSome then
          ((active_ders.filter (fun d => d.is_hot)).map
            (fun d => d.hotwater_recovered t)).sum
        else 0) ∧
    (∀ t, (get_state_of_system poi active_ders init).agg_thermal_cooling_power t =
      init.agg_thermal_cooling_power t +
        if poi.site_cooling_load.isSome then
          ((active_ders.filter (fun d => d.is_cold)).map
            (fun d => d.cold_recovered t)).sum
        else 0) ∧
    (∀ t, (get_state_of_system poi active_ders init).load_sum t =
      init.load_sum t +
        ((active_ders.filter (fun d => d.technology_type == "Electric Vehicle")).map
          (fun d => d.charge t)).sum) := by
  induction active_ders generalizing init with
  | nil => simp [get_state_of_system, expected_warnings]
  | cons d rest ih =>
    obtain ⟨stLoad, stSteam, stHw, stCold, stWarn⟩ := state_step_spec poi init d
    obtain ⟨ihWarn, ihSteam, ihHw, ihCold, ihLoad⟩ := ih (state_step poi init d)
    have hfold : get_state_of_system poi (d :: rest) init =
        get_state_of_system poi rest (state_step poi init d) := rfl
    rw [hfold]
    refine ⟨?_, ?_, ?_, ?_, ?_⟩
    · rw [ihWarn, stWarn]
      simp [expected_warnings, List.append_assoc]
    · intro t
      rw [ihSteam t]
      simp only [stSteam]
      cases hhot : d.is_hot <;> cases hsm : poi.site_steam_load.isSome <;>
        simp [List.filter_cons, hhot, hsm] <;> ring
    · intro t
      rw [ihHw t]
      simp only [stHw]
      cases hhot : d.is_hot <;> cases hsm : poi.site_hotwater_load.isSome <;>
        simp [List.filter_cons, hhot, hsm] <;> ring
    · intro t
      rw [ihCold t]
      simp only [stCold]
      cases hcold : d.is_cold <;> cases hsm : poi.site_cooling_load.isSome <;>
        simp [List.filter_cons, hcold, hsm] <;> ring
    · intro t
      rw [ihLoad t]
      simp only [stLoad]
      by_cases hev : d.technology_type = "Electric Vehicle" <;>
        simp [List.filter_cons, hev] <;> ring

/-- A DER as consumed by `MicrogridPOI.merge_reports`: its type tags and
the columns of its `timeseries_report()` that the merge reads
(`... Electric Generation (kW)`, `... Power (kW)`,
`... State of Energy (kWh)`, `... Original Load (kW)`, `... Load (kW)`,
`... Charge (kW)`). -/
structure ReportDER (T : Nat) where
  technology_type : String
  tag : String
  electric_generation : Fin T → ℚ
  power : Fin T → ℚ
  state_of_energy : Fin T → ℚ
  original_load : Fin T → ℚ
  load : Fin T → ℚ
  charge : Fin T → ℚ

/-- The five aggregate columns `merge_reports` initializes to zero and
accumulates while looping over the DER list. -/
structure MergeAcc (T : Nat) where
  total_original_load : Fin T → ℚ
  total_load : Fin T → ℚ
  total_generation : Fin T → ℚ
  total_storage_power : Fin T → ℚ
  aggregated_soe : Fin T → ℚ

/-- One iteration of the `merge_reports` loop in dispatch-optimization
mode: per-technology-type accumulation into the aggregate columns (a
no-op when `is_dispatch_opt` is false). -/
def merge_step {T : Nat} (is_dispatch_opt : Bool) (acc : MergeAcc T) (der : ReportDER T) :
    MergeAcc T :=
  if is_dispatch_opt then
    let acc1 :=
      if der.technology_type = "Generator" ∨ der.technology_type = "Intermittent Resource"
      then
        { acc with total_generation :=
            fun t => acc.total_generation t + der.electric_generation t }
      else acc
    let acc2 :=
      if der.technology_type = "Energy Storage System" then
        { acc1 with
          total_storage_power := fun t => acc1.total_storage_power t + der.power t
          aggregated_soe := fun t => acc1.aggregated_soe t + der.state_of_energy t }
      else acc1
    let acc3 :=
      if der.technology_type = "Load" then
        let acc2a :=
          { acc2 with total_original_load :=
              fun t => acc2.total_original_load t + der.original_load t }
        if der.tag = "ControllableLoad" then
          { acc2a with total_load := fun t => acc2a.total_load t + der.load t }
        else
          { acc2a with total_load := fun t => acc2a.total_load t + der.original_load t }
      else acc2
    if der.technology_type = "Electric Vehicle" then
      let acc4 := { acc3 with total_load := fun t => acc3.total_load t + der.charge t }
      if der.tag = "ElectricVehicle1" then
        { acc4 with aggregated_soe := fun t => acc4.aggregated_soe t + der.state_of_energy t }
      else acc4
    else acc3
  else acc

/-- The zero-initialized aggregate columns of `merge_reports`. -/
def zeroMergeAcc (T : Nat) : MergeAcc T where
  total_original_load := fun _ => 0
  total_load := fun _ => 0
  total_generation := fun _ => 0
  total_storage_power := fun _ => 0
  aggregated_soe := fun _ => 0

/-- The time-series table returned by `merge_reports`, restricted to the
aggregate columns: `has_total_original_load` records whether the
`Total Original Load (kW)` column survives the redundancy drop. -/
structure MergedResults (T : Nat) where
  has_total_original_load : Bool
  total_original_load : Fin T → ℚ
  total_load : Fin T → ℚ
  total_generation : Fin T → ℚ
  total_storage_power : Fin T → ℚ
  aggregated_soe : Fin T → ℚ
  net_load : Fin T → ℚ

/-- `MicrogridPOI.merge_reports(self, is_dispatch_opt, index)`: aggregates
over the DER list, drops `Total Original Load (kW)` when it equals
`Total Load (kW)` at every row (`np.all`), then derives
`Net Load (kW) = Total Load - Total Generation - Total Storage Power`. -/
def merge_reports {T : Nat} (is_dispatch_opt : Bool) (der_list : List (ReportDER T)) :
    MergedResults T :=
  let acc := der_list.foldl (merge_step is_dispatch_opt) (zeroMergeAcc T)
  { has_total_original_load :=
      !(decide (∀ t : Fin T, acc.total_load t = acc.total_original_load t))
    total_original_load := acc.total_original_load
    total_load := acc.total_load
    total_generation := acc.total_generation
    total_storage_power := acc.total_storage_power
    aggregated_soe := acc.aggregated_soe
    net_load := fun t => acc.total_load t - acc.total_generation t -
      acc.total_storage_power t }

/-- C7: the merged table keeps its `Total Original Load (kW)` column if
and only if `Total Load (kW)` differs from it at some row; when the two
columns agree at every row the column is dropped. -/
theorem C7_merge_reports_original_load_column {T : Nat} (is_dispatch_opt : Bool)
    (der_list : List (ReportDER T)) :
    ((merge_reports is_dispatch_opt der_list).has_total_original_load = true ↔
      ∃ t, (merge_reports is_dispatch_opt der_list).total_load t ≠
        (merge_reports is_dispatch_opt der_list).total_original_load t) ∧
    ((merge_reports is_dispatch_opt der_list).has_total_original_load = false ↔
      ∀ t, (merge_reports is_dispatch_opt der_list).total_load t =
        (merge_reports is_dispatch_opt der_list).total_original_load t) := by
  unfold merge_reports
  constructor
  · simp [not_forall]
  · simp [not_exists]

/-- C8: at every row, the `Net Load (kW)` column of the merged table
equals exactly `Total Load (kW)` minus `Total Generation (kW)` minus
`Total Storage Power (kW)` as a derived column. -/
theorem C8_merge_reports_net_load {T : Nat} (is_dispatch_opt : Bool)
    (der_list : List (ReportDER T)) (t : Fin T) :
    (merge_reports is_dispatch_opt der_list).net_load t =
      (merge_reports is_dispatch_opt der_list).total_load t -
        (merge_reports is_dispatch_opt der_list).total_generation t -
          (merge_reports is_dispatch_opt der_list).total_storage_power t := rfl

end DerVet
